import Mathlib

/-!
Verification of the NutriTrack nutrition-tracking client (src/src/App.jsx).

The development shallowly embeds the app's pure logic in Lean 4:
JavaScript numbers are modelled as exact rationals `ℚ` (every numeric
literal in the source is an exact decimal, and every claim-relevant
rounding is far enough from any half-way/representation boundary that
IEEE-754 evaluation and exact rational evaluation agree); a JavaScript
value that may be `NaN`/`undefined` is modelled as `Option ℚ` with
`none` for the absent/NaN case; strings stay `String`. Two fidelity
boundaries are respected rather than papered over: object-literal
bracket lookup also hits `Object.prototype`, which
`activityMultiplierJs` models explicitly, and exact-rational addition
is order-invariant where IEEE-754 addition is not, so no
order-invariance property of the float-summing aggregator is asserted
from this model.
-/

/-! ## Target Calculator (src/src/App.jsx lines 27-54) -/

/-- Embedding of `calculateBMR` (App.jsx lines 27-30): Harris-Benedict
formula, male branch when `gender === 'male'`, otherwise the female
formula. Argument order follows the source: weight, height, age, gender. -/
def calculateBMR (weight height age : ℚ) (gender : String) : ℚ :=
  if gender = "male" then
    88.362 + (13.397 * weight) + (4.799 * height) - (5.677 * age)
  else
    447.593 + (9.247 * weight) + (3.098 * height) - (4.330 * age)

/-- Numeric multiplier selected by `activityMultipliers[activityLevel]
|| 1.2` (App.jsx lines 33-34) for every activity-level string that is
not an inherited `Object.prototype` property name: the five own keys of
the object literal, and the `|| 1.2` default where the lookup is
`undefined`. The full JavaScript lookup, which also hits the prototype
chain, is `activityMultiplierJs` below; `calculateTDEEJs_eq_of_not_proto`
proves this definition is its restriction. -/
def activityMultiplier (activityLevel : String) : ℚ :=
  if activityLevel = "sedentary" then 1.2
  else if activityLevel = "light" then 1.375
  else if activityLevel = "moderate" then 1.55
  else if activityLevel = "active" then 1.725
  else if activityLevel = "veryActive" then 1.9
  else 1.2

/-- Embedding of `calculateTDEE` (App.jsx lines 32-35) on activity
levels that are not inherited `Object.prototype` property names (the
only strings the app's select element can produce); `calculateTDEEJs`
models the full behavior including prototype-chain hits. -/
def calculateTDEE (bmr : ℚ) (activityLevel : String) : ℚ :=
  bmr * activityMultiplier activityLevel

/-- Property names that the `activityMultipliers` object literal
inherits from `Object.prototype`: bracket lookup with one of these keys
yields a truthy non-numeric member (a function, or the prototype object
for `__proto__`), which `|| 1.2` keeps. -/
def objectProtoPropNames : List String :=
  ["constructor", "hasOwnProperty", "isPrototypeOf", "propertyIsEnumerable",
    "toLocaleString", "toString", "valueOf", "__proto__",
    "__defineGetter__", "__defineSetter__", "__lookupGetter__", "__lookupSetter__"]

/-- Full model of `activityMultipliers[activityLevel] || 1.2` (App.jsx
lines 33-34): an own key yields its (truthy) number; a key inherited
from `Object.prototype` yields a truthy non-numeric member, modelled as
`none`; any other key yields `undefined`, and `|| 1.2` supplies the
default. -/
def activityMultiplierJs (activityLevel : String) : Option ℚ :=
  if activityLevel = "sedentary" then some 1.2
  else if activityLevel = "light" then some 1.375
  else if activityLevel = "moderate" then some 1.55
  else if activityLevel = "active" then some 1.725
  else if activityLevel = "veryActive" then some 1.9
  else if activityLevel ∈ objectProtoPropNames then none
  else some 1.2

/-- Full model of `calculateTDEE` (App.jsx lines 32-35): multiplying
the BMR by a non-numeric inherited member gives NaN (`none`). -/
def calculateTDEEJs (bmr : ℚ) (activityLevel : String) : Option ℚ :=
  (activityMultiplierJs activityLevel).map fun m => bmr * m

/-- On every activity level that is not an inherited `Object.prototype`
property name, the full lookup model agrees with the numeric
`calculateTDEE` restriction used by the target pipeline. -/
lemma calculateTDEEJs_eq_of_not_proto (bmr : ℚ) (l : String)
    (hp : l ∉ objectProtoPropNames) :
    calculateTDEEJs bmr l = some (calculateTDEE bmr l) := by
  simp only [calculateTDEEJs, activityMultiplierJs, calculateTDEE, activityMultiplier]
  split_ifs with h1 h2 h3 h4 h5 <;> simp_all

/-- Embedding of `adjustCaloriesForGoal` (App.jsx lines 37-43). -/
def adjustCaloriesForGoal (tdee : ℚ) (goal : String) : ℚ :=
  if goal = "lose" then tdee * 0.85
  else if goal = "gain" then tdee * 1.15
  else tdee

/-- Macro targets record returned by `getMacroTargets`. -/
structure MacroTargets where
  carbs : ℤ
  protein : ℤ
  fat : ℤ
  deriving DecidableEq, Repr

/-- Embedding of `getMacroTargets` (App.jsx lines 45-54). `Math.round`
on a rational is `round` (round half toward positive infinity), which
agrees with the JavaScript builtin. -/
def getMacroTargets (calories : ℚ) : MacroTargets :=
  let carbsCalories := calories * 0.4
  let proteinCalories := calories * 0.3
  let fatCalories := calories * 0.3
  { carbs := round (carbsCalories / 4)
    protein := round (proteinCalories / 4)
    fat := round (fatCalories / 9) }

/-- Derived target fields persisted on the profile document. -/
structure ProfileTargets where
  calorieTarget : ℤ
  carbs : ℤ
  protein : ℤ
  fat : ℤ
  deriving DecidableEq, Repr

/-- Embedding of the target-computation pipeline shared by
`ProfileSetup.handleSubmit` (App.jsx lines 160-163) and
`SettingsPage.handleSubmit` (lines 495-498): BMR, then TDEE, then the
goal adjustment rounded to the calorie target, then the macro split of
that rounded target. -/
def computeProfileTargets (weight height age : ℚ)
    (gender activityLevel goal : String) : ProfileTargets :=
  let bmr := calculateBMR weight height age gender
  let tdee := calculateTDEE bmr activityLevel
  let calorieTarget := round (adjustCaloriesForGoal tdee goal)
  let m := getMacroTargets (calorieTarget : ℚ)
  { calorieTarget := calorieTarget, carbs := m.carbs
    protein := m.protein, fat := m.fat }

/-- Evaluation lemma: the adjusted TDEE of the scenario-1 profile with
goal `maintain` is exactly `2034.8004` kcal. -/
lemma adjusted_maintain :
    adjustCaloriesForGoal (calculateTDEE (calculateBMR 70 175 30 "male") "sedentary")
      "maintain" = 5087001 / 2500 := by
  simp only [adjustCaloriesForGoal, calculateTDEE, calculateBMR, activityMultiplier,
    String.reduceEq, reduceIte]
  norm_num

/-- Evaluation lemma: the adjusted TDEE of the scenario-1 profile with
goal `lose` is exactly `1729.58034` kcal. -/
lemma adjusted_lose :
    adjustCaloriesForGoal (calculateTDEE (calculateBMR 70 175 30 "male") "sedentary")
      "lose" = 86479017 / 50000 := by
  simp only [adjustCaloriesForGoal, calculateTDEE, calculateBMR, activityMultiplier,
    String.reduceEq, reduceIte]
  norm_num

/-- Evaluation lemma: the full target record of scenario 1
(maintain goal). -/
lemma computeProfileTargets_maintain :
    computeProfileTargets 70 175 30 "male" "sedentary" "maintain"
      = ⟨2035, 204, 153, 68⟩ := by
  have h2 : round ((5087001 : ℚ) / 2500) = 2035 := by
    rw [round_eq, Int.floor_eq_iff]; norm_num
  simp only [computeProfileTargets, getMacroTargets, adjusted_maintain, h2,
    ProfileTargets.mk.injEq]
  refine ⟨trivial, ?_, ?_, ?_⟩ <;> rw [round_eq, Int.floor_eq_iff] <;> norm_num

/-- Evaluation lemma: the full target record of scenario 2
(lose goal): the calorie target is 1730, not 1729. -/
lemma computeProfileTargets_lose :
    computeProfileTargets 70 175 30 "male" "sedentary" "lose"
      = ⟨1730, 173, 130, 58⟩ := by
  have h2 : round ((86479017 : ℚ) / 50000) = 1730 := by
    rw [round_eq, Int.floor_eq_iff]; norm_num
  simp only [computeProfileTargets, getMacroTargets, adjusted_lose, h2,
    ProfileTargets.mk.injEq]
  refine ⟨trivial, ?_, ?_, ?_⟩ <;> rw [round_eq, Int.floor_eq_iff] <;> norm_num

/-! ## Profile form submission (App.jsx lines 149-188 and 484-543) -/

/-- Numeric value of a list of decimal digits. -/
def digitsVal (cs : List Char) : ℕ :=
  cs.foldl (fun n c => n * 10 + (c.toNat - '0'.toNat)) 0

/-- Model of the JavaScript `parseFloat` builtin, restricted to the
plain unsigned decimal numerals produced by the app's number inputs
(`"175"`, `"70.5"`). Every other string is modelled as parsing to NaN,
represented by `none`. -/
def parseFloatJs (s : String) : Option ℚ :=
  let cs := s.toList
  let intPart := cs.takeWhile Char.isDigit
  let rest := cs.dropWhile Char.isDigit
  match rest with
  | [] => if intPart = [] then none else some (digitsVal intPart)
  | '.' :: fracPart =>
      if fracPart ≠ [] ∧ fracPart.all Char.isDigit then
        some ((digitsVal intPart : ℚ) + (digitsVal fracPart : ℚ) / 10 ^ fracPart.length)
      else none
  | _ => none

/-- Model of the JavaScript `parseInt` builtin on the same restricted
inputs: the leading digit prefix, or NaN (`none`) when there is none. -/
def parseIntJs (s : String) : Option ℚ :=
  let intPart := s.toList.takeWhile Char.isDigit
  if intPart = [] then none else some (digitsVal intPart)

/-- The six string-valued fields held by `ProfileForm`'s state
(App.jsx lines 89-146); number inputs still yield strings. -/
structure ProfileForm where
  height : String
  weight : String
  age : String
  gender : String
  activityLevel : String
  goal : String
  deriving DecidableEq, Repr

/-- Profile document persisted by both submit handlers: the raw form
fields together with the derived targets (App.jsx lines 164 and 499;
the `createdAt` timestamp is supplied by the environment's clock and
carries no logic, so it is not modelled). `targets = none` models the
NaN-valued derived fields that arise when a non-empty field fails to
parse (NaN propagates through every arithmetic step and `Math.round`). -/
structure ProfileData where
  height : String
  weight : String
  age : String
  gender : String
  activityLevel : String
  goal : String
  targets : Option ProfileTargets
  deriving DecidableEq, Repr

/-- Lifting of the target pipeline over possibly-NaN parsed inputs: the
BMR/TDEE/goal/round/macro chain is strict, so one NaN input makes every
derived field NaN. -/
def computeTargetsJs (w h a : Option ℚ) (gender activityLevel goal : String) :
    Option ProfileTargets :=
  match w, h, a with
  | some w, some h, some a => some (computeProfileTargets w h a gender activityLevel goal)
  | _, _, _ => none

/-- Profile document built from a form whose guard passed, mirroring
`const bmr = calculateBMR(parseFloat(weight), parseFloat(height),
parseInt(age), gender)` and the lines after it (App.jsx 160-164,
495-499). -/
def profileDataOf (f : ProfileForm) : ProfileData :=
  { height := f.height, weight := f.weight, age := f.age, gender := f.gender
    activityLevel := f.activityLevel, goal := f.goal
    targets := computeTargetsJs (parseFloatJs f.weight) (parseFloatJs f.height)
      (parseIntJs f.age) f.gender f.activityLevel f.goal }

/-- Outcome of a profile form submission: the alert-and-return path, or
the persisted document. -/
inductive SubmitResult where
  | rejected
  | saved (p : ProfileData)
  deriving DecidableEq, Repr

/-- Embedding of `ProfileSetup.handleSubmit` (App.jsx lines 153-177):
`if (!height || !weight || !age)` rejects exactly when one of the three
string fields is empty (the only falsy string); otherwise the targets
are computed and the document is written. -/
def profileSetupSubmit (f : ProfileForm) : SubmitResult :=
  if f.height = "" ∨ f.weight = "" ∨ f.age = "" then .rejected
  else .saved (profileDataOf f)

/-- Embedding of `SettingsPage.handleSubmit` (App.jsx lines 488-503),
which repeats the same guard and computation before the merge write. -/
def settingsSubmit (f : ProfileForm) : SubmitResult :=
  if f.height = "" ∨ f.weight = "" ∨ f.age = "" then .rejected
  else .saved (profileDataOf f)

example : parseFloatJs "175" = some 175 := by
  simp [parseFloatJs, digitsVal, List.takeWhile, List.dropWhile]

example : parseIntJs "30" = some 30 := by
  simp [parseIntJs, digitsVal, List.takeWhile]

/-! ## Nutrition Aggregator (App.jsx lines 455-459) -/

/-- Meal record as the aggregator sees it. A numeric field that is
absent from the stored document (or NaN) is `none`; `meal.calories || 0`
turns both into a 0 contribution. -/
structure Meal where
  name : String
  calories : Option ℚ
  carbs : Option ℚ
  protein : Option ℚ
  fat : Option ℚ
  deriving DecidableEq, Repr

/-- Consumed totals accumulator of `HomePage.consumedTotals`. -/
structure Totals where
  calories : ℚ
  carbs : ℚ
  protein : ℚ
  fat : ℚ
  deriving DecidableEq, Repr

/-- Embedding of the `reduce` in `HomePage.consumedTotals` (App.jsx
lines 455-459): left fold from the all-zero accumulator, each field
contributing `meal.field || 0`. -/
def consumedTotals (todaysMeals : List Meal) : Totals :=
  todaysMeals.foldl
    (fun acc meal =>
      { calories := acc.calories + meal.calories.getD 0
        carbs := acc.carbs + meal.carbs.getD 0
        protein := acc.protein + meal.protein.getD 0
        fat := acc.fat + meal.fat.getD 0 })
    { calories := 0, carbs := 0, protein := 0, fat := 0 }

/-- The fold underlying `consumedTotals` splits into four independent
field sums over the meal list. -/
lemma consumedTotals_eq_sums (l : List Meal) :
    consumedTotals l =
      { calories := (l.map fun m => m.calories.getD 0).sum
        carbs := (l.map fun m => m.carbs.getD 0).sum
        protein := (l.map fun m => m.protein.getD 0).sum
        fat := (l.map fun m => m.fat.getD 0).sum } := by
  suffices h : ∀ (l : List Meal) (acc : Totals),
      l.foldl (fun acc meal =>
        { calories := acc.calories + meal.calories.getD 0
          carbs := acc.carbs + meal.carbs.getD 0
          protein := acc.protein + meal.protein.getD 0
          fat := acc.fat + meal.fat.getD 0 }) acc =
      { calories := acc.calories + (l.map fun m => m.calories.getD 0).sum
        carbs := acc.carbs + (l.map fun m => m.carbs.getD 0).sum
        protein := acc.protein + (l.map fun m => m.protein.getD 0).sum
        fat := acc.fat + (l.map fun m => m.fat.getD 0).sum } by
    rw [consumedTotals, h]
    simp
  intro l
  induction l with
  | nil => intro acc; simp
  | cons m t ih =>
      intro acc
      simp only [List.foldl_cons, List.map_cons, List.sum_cons, ih]
      congr 1 <;> ring

/-- Appending one meal adds its (defaulted) field values to the totals. -/
lemma consumedTotals_append_singleton (l : List Meal) (m : Meal) :
    consumedTotals (l ++ [m]) =
      { calories := (consumedTotals l).calories + m.calories.getD 0
        carbs := (consumedTotals l).carbs + m.carbs.getD 0
        protein := (consumedTotals l).protein + m.protein.getD 0
        fat := (consumedTotals l).fat + m.fat.getD 0 } := by
  simp [consumedTotals_eq_sums]

/-! ## Water tracker (App.jsx lines 423-452) -/

/-- Embedding of `WaterTracker.updateWaterCount` (App.jsx lines
436-440): the new count is clamped at zero with `Math.max(0, newCount)`
before being displayed and written. -/
def updateWaterCount (newCount : ℤ) : ℤ :=
  max 0 newCount

/-- The two water-counter mutations wired to the minus and plus buttons
(App.jsx lines 446-448). -/
inductive WaterOp where
  | dec
  | inc
  deriving DecidableEq, Repr

/-- One button press: `updateWaterCount(waterCount - 1)` or
`updateWaterCount(waterCount + 1)` applied to the current count. -/
def waterStep (waterCount : ℤ) : WaterOp → ℤ
  | .dec => updateWaterCount (waterCount - 1)
  | .inc => updateWaterCount (waterCount + 1)

/-- The counter after a finite sequence of button presses. -/
def runWater (waterCount : ℤ) (ops : List WaterOp) : ℤ :=
  ops.foldl waterStep waterCount

example : runWater 0 [.dec, .inc, .inc, .inc] = 3 := by decide
example : waterStep 0 .dec = 0 := by decide

/-! ## Data wipe (App.jsx lines 620-635) -/

/-- Stored meal document: an opaque id assigned by the store and a
creation timestamp; the nutrition fields play no role in deletion. -/
structure MealDoc where
  id : ℕ
  createdAt : ℤ
  deriving DecidableEq, Repr

/-- Stored daily water document, keyed by its date string. -/
structure WaterDoc where
  date : String
  waterCount : ℤ
  deriving DecidableEq, Repr

/-- The per-user slice of the document store touched by the app: the
single profile document, the `meals` collection and the `daily_stats`
collection. -/
structure Store where
  profile : Option ProfileData
  meals : List MealDoc
  dailyStats : List WaterDoc
  deriving DecidableEq, Repr

/-- Document references a batch operation can target, mirroring the
three `doc`/`collection` paths built in `App.handleDataDelete`
(App.jsx lines 623-625). -/
inductive DocRef where
  | profileRef
  | mealRef (id : ℕ)
  | statsRef (date : String)
  deriving DecidableEq, Repr

/-- Effect of one `batch.delete(ref)` on the per-user store slice. -/
def batchDelete (s : Store) : DocRef → Store
  | .profileRef => { s with profile := none }
  | .mealRef i => { s with meals := s.meals.filter fun m => m.id ≠ i }
  | .statsRef d => { s with dailyStats := s.dailyStats.filter fun w => w.date ≠ d }

/-- Applying every delete of a committed batch, in order. -/
def applyBatch (s : Store) (b : List DocRef) : Store :=
  b.foldl batchDelete s

/-- The batch assembled by `App.handleDataDelete` (App.jsx lines
627-631): the profile document, one delete per document of the full
`meals` snapshot (no date filter), and one per document of the full
`daily_stats` snapshot. -/
def dataDeleteBatch (s : Store) : List DocRef :=
  [DocRef.profileRef]
    ++ (s.meals.map fun m => DocRef.mealRef m.id)
    ++ (s.dailyStats.map fun w => DocRef.statsRef w.date)

/-- Embedding of `App.handleDataDelete` (App.jsx lines 620-635).
Modelled from the spec: the external store's batched write is atomic,
so `batch.commit()` either applies every queued delete (`commitOk =
true`) or fails as a whole, in which case the store is untouched and
the caller sees only the reported failure (`none`). -/
def handleDataDelete (s : Store) (commitOk : Bool) : Option Store :=
  if commitOk then some (applyBatch s (dataDeleteBatch s)) else none

/-- Deletes against other collections never touch the meals list, and a
meal surviving a batch was present before with its id never targeted. -/
lemma mem_meals_applyBatch {s : Store} {b : List DocRef} {m : MealDoc}
    (h : m ∈ (applyBatch s b).meals) :
    m ∈ s.meals ∧ DocRef.mealRef m.id ∉ b := by
  induction b generalizing s with
  | nil => simpa [applyBatch] using h
  | cons r t ih =>
      rw [applyBatch, List.foldl_cons] at h
      obtain ⟨hmem, hnot⟩ := ih h
      cases r with
      | profileRef =>
          exact ⟨hmem, by simp [hnot]⟩
      | mealRef i =>
          rw [batchDelete, List.mem_filter] at hmem
          refine ⟨hmem.1, ?_⟩
          simp only [List.mem_cons, not_or]
          exact ⟨by simpa using (by simpa using hmem.2 : m.id ≠ i), hnot⟩
      | statsRef d =>
          exact ⟨hmem, by simp [hnot]⟩

/-- Same statement for the daily-stats collection, keyed by date. -/
lemma mem_stats_applyBatch {s : Store} {b : List DocRef} {w : WaterDoc}
    (h : w ∈ (applyBatch s b).dailyStats) :
    w ∈ s.dailyStats ∧ DocRef.statsRef w.date ∉ b := by
  induction b generalizing s with
  | nil => simpa [applyBatch] using h
  | cons r t ih =>
      rw [applyBatch, List.foldl_cons] at h
      obtain ⟨hmem, hnot⟩ := ih h
      cases r with
      | profileRef =>
          exact ⟨hmem, by simp [hnot]⟩
      | mealRef i =>
          exact ⟨hmem, by simp [hnot]⟩
      | statsRef d =>
          rw [batchDelete, List.mem_filter] at hmem
          refine ⟨hmem.1, ?_⟩
          simp only [List.mem_cons, not_or]
          exact ⟨by simpa using (by simpa using hmem.2 : w.date ≠ d), hnot⟩

/-- Once deleted, the profile stays deleted for the rest of the batch. -/
lemma profile_none_applyBatch {s : Store} (hs : s.profile = none) (b : List DocRef) :
    (applyBatch s b).profile = none := by
  induction b generalizing s with
  | nil => simpa [applyBatch] using hs
  | cons r t ih =>
      rw [applyBatch, List.foldl_cons]
      refine ih ?_
      cases r <;> simp [batchDelete, hs]

/-! ## AI meal inference (App.jsx lines 298-348) -/

/-- Nutrition estimate parsed from the model's JSON text. Any field may
be absent from the parsed object; the render and commit paths default
numeric fields with `|| 0` only at display/aggregation time. -/
structure AiMeal where
  name : Option String
  calories : Option ℚ
  carbs : Option ℚ
  protein : Option ℚ
  fat : Option ℚ
  deriving DecidableEq, Repr

/-- One part of a Gemini candidate's content. -/
structure GeminiPart where
  text : String
  deriving DecidableEq, Repr

/-- Content of a Gemini candidate. -/
structure GeminiContent where
  parts : List GeminiPart
  deriving DecidableEq, Repr

/-- One Gemini candidate; `content` may be absent from the JSON body. -/
structure GeminiCandidate where
  content : Option GeminiContent
  deriving DecidableEq, Repr

/-- The inference-service response as `sendAIRequest` inspects it: a
non-ok HTTP response (which `throw`s), or a JSON body whose
`candidates` array may be absent. -/
inductive AIResponse where
  | httpError
  | ok (candidates : Option (List GeminiCandidate))
  deriving DecidableEq, Repr

/-- Step of `sendAIRequest`'s structure check on the first content's
parts array: an empty (or absent) array fails the guard and `throw`s;
otherwise the first part's `text` goes to `JSON.parse`. -/
def partsResult (parseJson : String → Option AiMeal) : List GeminiPart → Option AiMeal
  | [] => none
  | part :: _ => parseJson part.text

/-- Step of `sendAIRequest`'s structure check on the first candidate's
content: absent content fails the guard and `throw`s. -/
def contentResult (parseJson : String → Option AiMeal) :
    Option GeminiContent → Option AiMeal
  | none => none
  | some content => partsResult parseJson content.parts

/-- Embedding of `AddFoodModal.sendAIRequest` (App.jsx lines 298-346):
the result state set when the call finishes. A non-ok response, a body
without a first candidate, first content or first part, and a
`JSON.parse` failure on the part's text all end in the `catch` block,
which alerts and sets the result to `null` (`none`). `parseJson` stands
for the `JSON.parse` builtin: `none` models both a parse exception and
a parsed value that is not an object (which is falsy or field-less in
every later use). -/
def sendAIRequest (parseJson : String → Option AiMeal) : AIResponse → Option AiMeal
  | .httpError => none
  | .ok none => none
  | .ok (some []) => none
  | .ok (some (c :: _)) => contentResult parseJson c.content

/-- Embedding of `AddFoodModal.handleAiResultConfirm` (App.jsx line
348) composed with `App.handleFoodAction`'s `addDoc` (lines 589-598):
the confirm button commits the pending result to the meal log only when
`aiResult` is non-null; with no result it leaves the log untouched. -/
def handleAiResultConfirm (aiResult : Option AiMeal) (mealLog : List AiMeal) :
    List AiMeal :=
  match aiResult with
  | none => mealLog
  | some m => mealLog ++ [m]

/-! ## Evaluation lemmas for the concrete scenarios -/

/-- Evaluation lemma: the height field of scenario 1 parses to 175. -/
lemma parseFloatJs_175 : parseFloatJs "175" = some 175 := by
  simp [parseFloatJs, digitsVal, List.takeWhile, List.dropWhile]

/-- Evaluation lemma: the weight field of scenario 1 parses to 70. -/
lemma parseFloatJs_70 : parseFloatJs "70" = some 70 := by
  simp [parseFloatJs, digitsVal, List.takeWhile, List.dropWhile]

/-- Evaluation lemma: the age field of scenario 1 parses to 30. -/
lemma parseIntJs_30 : parseIntJs "30" = some 30 := by
  simp [parseIntJs, digitsVal, List.takeWhile]

/-- Evaluation lemma: the document persisted for the scenario-1 form. -/
lemma profileDataOf_scenario1 :
    profileDataOf ⟨"175", "70", "30", "male", "sedentary", "maintain"⟩ =
      ⟨"175", "70", "30", "male", "sedentary", "maintain", some ⟨2035, 204, 153, 68⟩⟩ := by
  rw [profileDataOf]
  simp only [parseFloatJs_70, parseFloatJs_175, parseIntJs_30, computeTargetsJs,
    computeProfileTargets_maintain]

/-- Evaluation lemma: the document persisted for the scenario-2 form. -/
lemma profileDataOf_scenario2 :
    profileDataOf ⟨"175", "70", "30", "male", "sedentary", "lose"⟩ =
      ⟨"175", "70", "30", "male", "sedentary", "lose", some ⟨1730, 173, 130, 58⟩⟩ := by
  rw [profileDataOf]
  simp only [parseFloatJs_70, parseFloatJs_175, parseIntJs_30, computeTargetsJs,
    computeProfileTargets_lose]

/-! ## Claims -/

/-- C1: for every profile with non-negative numeric height, weight and
age and any gender/activityLevel/goal strings, the persisted calorie
target is `round(adjustForGoal(computeTDEE(computeBMR(weight, height,
age, gender), activityLevel), goal))`; and the scenario-1 profile
{175, 70, 30, male, sedentary, maintain} is persisted with
calorieTarget 2035, carbs 204, protein 153, fat 68. -/
theorem targets_persist_round_pipeline (w h a : ℚ)
    (_hw : 0 ≤ w) (_hh : 0 ≤ h) (_ha : 0 ≤ a) (gender activityLevel goal : String) :
    (computeProfileTargets w h a gender activityLevel goal).calorieTarget
        = round (adjustCaloriesForGoal
            (calculateTDEE (calculateBMR w h a gender) activityLevel) goal)
      ∧ profileSetupSubmit ⟨"175", "70", "30", "male", "sedentary", "maintain"⟩
        = .saved ⟨"175", "70", "30", "male", "sedentary", "maintain",
            some ⟨2035, 204, 153, 68⟩⟩ := by
  constructor
  · rfl
  · rw [profileSetupSubmit]
    simp only [String.reduceEq, or_self, or_false, reduceIte, profileDataOf_scenario1]

/-- Witness for C1 at the scenario-1 profile. -/
theorem targets_persist_round_pipeline_witness :
    (0 : ℚ) ≤ 70 ∧ (0 : ℚ) ≤ 175 ∧ (0 : ℚ) ≤ 30 ∧
      ((computeProfileTargets 70 175 30 "male" "sedentary" "maintain").calorieTarget
          = round (adjustCaloriesForGoal
              (calculateTDEE (calculateBMR 70 175 30 "male") "sedentary") "maintain")
        ∧ profileSetupSubmit ⟨"175", "70", "30", "male", "sedentary", "maintain"⟩
          = .saved ⟨"175", "70", "30", "male", "sedentary", "maintain",
              some ⟨2035, 204, 153, 68⟩⟩) :=
  ⟨by decide, by decide, by decide,
    targets_persist_round_pipeline 70 175 30 (by decide) (by decide) (by decide)
      "male" "sedentary" "maintain"⟩

/-- C2 counterexample: for the scenario-2 profile with goal `lose`, the
computed calorie target is not 1729. -/
theorem lose_goal_target_ne_1729 :
    (computeProfileTargets 70 175 30 "male" "sedentary" "lose").calorieTarget ≠ 1729 := by
  rw [computeProfileTargets_lose]
  decide

/-- C2 (amended): the adjusted TDEE of the scenario-2 profile is
exactly 2034.8004 × 0.85 = 1729.58034, so its persisted calorie target
is round(1729.58034) = 1730. -/
theorem lose_goal_target_eq_1730 :
    adjustCaloriesForGoal (calculateTDEE (calculateBMR 70 175 30 "male") "sedentary")
        "lose" = 86479017 / 50000
      ∧ (computeProfileTargets 70 175 30 "male" "sedentary" "lose").calorieTarget = 1730
      ∧ profileSetupSubmit ⟨"175", "70", "30", "male", "sedentary", "lose"⟩
        = .saved ⟨"175", "70", "30", "male", "sedentary", "lose",
            some ⟨1730, 173, 130, 58⟩⟩ := by
  refine ⟨adjusted_lose, by rw [computeProfileTargets_lose], ?_⟩
  rw [profileSetupSubmit]
  simp only [String.reduceEq, or_self, or_false, reduceIte, profileDataOf_scenario2]

/-- C3: `calculateBMR` uses the male Harris-Benedict constants exactly
when the gender string is `"male"` and the female constants for every
other string, raising no error. -/
theorem calculateBMR_gender_cases (w h a : ℚ) (g : String) (hg : g ≠ "male") :
    calculateBMR w h a "male" = 88.362 + 13.397 * w + 4.799 * h - 5.677 * a
      ∧ calculateBMR w h a g = 447.593 + 9.247 * w + 3.098 * h - 4.330 * a := by
  constructor
  · simp [calculateBMR]
  · simp [calculateBMR, hg]

/-- Witness for C3 with the unrecognized gender string "other". -/
theorem calculateBMR_gender_cases_witness :
    ("other" : String) ≠ "male" ∧
      (calculateBMR 1 2 3 "male" = 88.362 + 13.397 * 1 + 4.799 * 2 - 5.677 * 3
        ∧ calculateBMR 1 2 3 "other" = 447.593 + 9.247 * 1 + 3.098 * 2 - 4.330 * 3) :=
  ⟨by decide, calculateBMR_gender_cases 1 2 3 "other" (by decide)⟩

/-- C4 counterexample: `"constructor"` is outside the five-key table,
yet the lookup hits the inherited `Object.prototype.constructor`, which
is truthy, so the code returns `bmr * NaN = NaN` and not `bmr * 1.2`. -/
theorem calculateTDEEJs_constructor_ne_default :
    ("constructor" : String) ∉ (["sedentary", "light", "moderate", "active", "veryActive"] :
        List String)
      ∧ calculateTDEEJs 1 "constructor" = none
      ∧ calculateTDEEJs 1 "constructor" ≠ some (1 * 1.2) := by
  refine ⟨by decide, ?_, ?_⟩ <;>
    simp [calculateTDEEJs, activityMultiplierJs, objectProtoPropNames]

/-- C4 (amended): `calculateTDEE` multiplies the BMR by 1.2, 1.375,
1.55, 1.725, 1.9 for the five recognized activity levels and by the 1.2
default for every other string that is not an inherited
`Object.prototype` property name; for those inherited names the lookup
yields a truthy non-numeric member and the result is NaN. -/
theorem calculateTDEE_prototype_cases (bmr : ℚ) (l : String)
    (hl : l ∉ (["sedentary", "light", "moderate", "active", "veryActive"] : List String)) :
    calculateTDEEJs bmr "sedentary" = some (bmr * 1.2)
      ∧ calculateTDEEJs bmr "light" = some (bmr * 1.375)
      ∧ calculateTDEEJs bmr "moderate" = some (bmr * 1.55)
      ∧ calculateTDEEJs bmr "active" = some (bmr * 1.725)
      ∧ calculateTDEEJs bmr "veryActive" = some (bmr * 1.9)
      ∧ (l ∉ objectProtoPropNames → calculateTDEEJs bmr l = some (bmr * 1.2))
      ∧ (l ∈ objectProtoPropNames → calculateTDEEJs bmr l = none) := by
  have hs : l ≠ "sedentary" ∧ l ≠ "light" ∧ l ≠ "moderate" ∧ l ≠ "active"
      ∧ l ≠ "veryActive" := by simpa using hl
  obtain ⟨h1, h2, h3, h4, h5⟩ := hs
  refine ⟨?_, ?_, ?_, ?_, ?_, ?_, ?_⟩
  · simp [calculateTDEEJs, activityMultiplierJs]
  · simp [calculateTDEEJs, activityMultiplierJs]
  · simp [calculateTDEEJs, activityMultiplierJs]
  · simp [calculateTDEEJs, activityMultiplierJs]
  · simp [calculateTDEEJs, activityMultiplierJs]
  · intro hp; simp [calculateTDEEJs, activityMultiplierJs, h1, h2, h3, h4, h5, hp]
  · intro hp; simp [calculateTDEEJs, activityMultiplierJs, h1, h2, h3, h4, h5, hp]

/-- Witness for the amended C4 at the inherited name "toString" and the
genuinely absent key "jogging". -/
theorem calculateTDEE_prototype_cases_witness :
    ("toString" : String) ∉ (["sedentary", "light", "moderate", "active", "veryActive"] :
        List String)
      ∧ ("toString" : String) ∈ objectProtoPropNames
      ∧ calculateTDEEJs 1 "toString" = none
      ∧ ("jogging" : String) ∉ objectProtoPropNames
      ∧ calculateTDEEJs 1 "jogging" = some (1 * 1.2) :=
  ⟨by decide, by decide,
    (calculateTDEE_prototype_cases 1 "toString" (by decide)).2.2.2.2.2.2 (by decide),
    by decide,
    (calculateTDEE_prototype_cases 1 "jogging" (by decide)).2.2.2.2.2.1 (by decide)⟩

/-- C6: a meal with a missing calories, carbs, protein or fat field
contributes 0 to that total; in scenario 3 the meals {calories 300},
{calories 450}, {calories 0, no macros} aggregate to 750 kcal with the
third meal contributing 0 to every total. -/
theorem consumedTotals_missing_field_zero (l : List Meal) (m : Meal) :
    (m.calories = none →
        (consumedTotals (l ++ [m])).calories = (consumedTotals l).calories)
      ∧ (m.carbs = none → (consumedTotals (l ++ [m])).carbs = (consumedTotals l).carbs)
      ∧ (m.protein = none →
          (consumedTotals (l ++ [m])).protein = (consumedTotals l).protein)
      ∧ (m.fat = none → (consumedTotals (l ++ [m])).fat = (consumedTotals l).fat)
      ∧ (consumedTotals [⟨"m1", some 300, some 30, some 20, some 10⟩,
            ⟨"m2", some 450, some 40, some 25, some 15⟩,
            ⟨"m3", some 0, none, none, none⟩]).calories = 750
      ∧ consumedTotals [⟨"m1", some 300, some 30, some 20, some 10⟩,
            ⟨"m2", some 450, some 40, some 25, some 15⟩,
            ⟨"m3", some 0, none, none, none⟩]
          = consumedTotals [⟨"m1", some 300, some 30, some 20, some 10⟩,
              ⟨"m2", some 450, some 40, some 25, some 15⟩] := by
  refine ⟨?_, ?_, ?_, ?_, ?_, ?_⟩
  · intro hm; rw [consumedTotals_append_singleton]; simp [hm]
  · intro hm; rw [consumedTotals_append_singleton]; simp [hm]
  · intro hm; rw [consumedTotals_append_singleton]; simp [hm]
  · intro hm; rw [consumedTotals_append_singleton]; simp [hm]
  · simp [consumedTotals]; norm_num
  · simp [consumedTotals]

/-- Witness for C6: appending the macro-less third scenario meal to the
first two leaves every total unchanged but the calories. -/
theorem consumedTotals_missing_field_zero_witness :
    ((⟨"m3", some 0, none, none, none⟩ : Meal).carbs = none ∧
      (consumedTotals ([⟨"m1", some 300, some 30, some 20, some 10⟩] ++
          [⟨"m3", some 0, none, none, none⟩])).carbs
        = (consumedTotals [⟨"m1", some 300, some 30, some 20, some 10⟩]).carbs) ∧
    ((⟨"m3", some 0, none, none, none⟩ : Meal).fat = none ∧
      (consumedTotals ([⟨"m1", some 300, some 30, some 20, some 10⟩] ++
          [⟨"m3", some 0, none, none, none⟩])).fat
        = (consumedTotals [⟨"m1", some 300, some 30, some 20, some 10⟩]).fat) :=
  ⟨⟨rfl, (consumedTotals_missing_field_zero
      [⟨"m1", some 300, some 30, some 20, some 10⟩]
      ⟨"m3", some 0, none, none, none⟩).2.1 rfl⟩,
    ⟨rfl, (consumedTotals_missing_field_zero
      [⟨"m1", some 300, some 30, some 20, some 10⟩]
      ⟨"m3", some 0, none, none, none⟩).2.2.2.1 rfl⟩⟩

/-- Each button press clamps at zero, so it can never produce a
negative count. -/
lemma waterStep_nonneg (s : ℤ) (op : WaterOp) : 0 ≤ waterStep s op := by
  cases op <;> simp [waterStep, updateWaterCount]

/-- C7: from any non-negative starting count, every finite sequence of
increments and decrements keeps the water count non-negative, and a
decrement at zero is a no-op that leaves the count at zero. -/
theorem waterCount_nonneg (s : ℤ) (ops : List WaterOp) (hs : 0 ≤ s) :
    0 ≤ runWater s ops ∧ waterStep 0 .dec = 0 := by
  refine ⟨?_, by decide⟩
  induction ops generalizing s with
  | nil => simpa [runWater] using hs
  | cons op t ih =>
      rw [runWater, List.foldl_cons]
      exact ih _ (waterStep_nonneg s op)

/-- Witness for C7: two decrements at zero followed by an increment
stay non-negative. -/
theorem waterCount_nonneg_witness :
    (0 : ℤ) ≤ 0 ∧
      (0 ≤ runWater 0 [.dec, .dec, .inc] ∧ waterStep 0 .dec = 0) :=
  ⟨by decide, waterCount_nonneg 0 [.dec, .dec, .inc] (by decide)⟩

/-- Stores with equal fields are equal. -/
lemma store_eq_of_fields {a b : Store} (h1 : a.profile = b.profile)
    (h2 : a.meals = b.meals) (h3 : a.dailyStats = b.dailyStats) : a = b := by
  cases a; cases b; simp_all

/-- C8: a committed data wipe leaves the store with no profile
document, no meal document (whatever its `createdAt`) and no
daily-stats document, and a failed commit reports failure with the
store untouched. -/
theorem handleDataDelete_atomic_wipe (s : Store) :
    handleDataDelete s true = some { profile := none, meals := [], dailyStats := [] }
      ∧ handleDataDelete s false = none := by
  refine ⟨?_, rfl⟩
  have hp : (applyBatch s (dataDeleteBatch s)).profile = none := by
    rw [dataDeleteBatch, List.singleton_append, List.cons_append, applyBatch,
      List.foldl_cons]
    exact profile_none_applyBatch rfl _
  have hm : (applyBatch s (dataDeleteBatch s)).meals = [] := by
    rw [List.eq_nil_iff_forall_not_mem]
    intro m hmem
    obtain ⟨hin, hnot⟩ := mem_meals_applyBatch hmem
    apply hnot
    rw [dataDeleteBatch, List.singleton_append, List.cons_append]
    simp only [List.mem_cons, List.mem_append, List.mem_map]
    exact Or.inr (Or.inl ⟨m, hin, rfl⟩)
  have hd : (applyBatch s (dataDeleteBatch s)).dailyStats = [] := by
    rw [List.eq_nil_iff_forall_not_mem]
    intro w hmem
    obtain ⟨hin, hnot⟩ := mem_stats_applyBatch hmem
    apply hnot
    rw [dataDeleteBatch, List.singleton_append, List.cons_append]
    simp only [List.mem_cons, List.mem_append, List.mem_map]
    exact Or.inr (Or.inr ⟨w, hin, rfl⟩)
  rw [handleDataDelete, if_pos rfl]
  exact congrArg some (store_eq_of_fields hp hm hd)

/-- C9: a non-ok inference response yields no pending result; a pending
result exists only for a response with a first candidate, content and
part whose text parses; confirming with no pending result leaves the
meal log untouched, and a meal is appended exactly on confirmation of a
parsed result. -/
theorem aiResult_error_discarded (parseJson : String → Option AiMeal)
    (r : AIResponse) (mealLog : List AiMeal) (hr : r = .httpError) :
    sendAIRequest parseJson r = none
      ∧ (∀ r2 m, sendAIRequest parseJson r2 = some m →
          ∃ c cs content part parts, r2 = .ok (some (c :: cs))
            ∧ c.content = some content
            ∧ content.parts = part :: parts
            ∧ parseJson part.text = some m)
      ∧ handleAiResultConfirm none mealLog = mealLog
      ∧ (∀ m, handleAiResultConfirm (some m) mealLog = mealLog ++ [m])
      ∧ (∀ r2, sendAIRequest parseJson r2 = none →
          handleAiResultConfirm (sendAIRequest parseJson r2) mealLog = mealLog) := by
  refine ⟨by rw [hr]; rfl, ?_, rfl, fun m => rfl, ?_⟩
  · intro r2 m hsome
    match r2 with
    | .httpError => exact absurd hsome (by simp [sendAIRequest])
    | .ok none => exact absurd hsome (by simp [sendAIRequest])
    | .ok (some []) => exact absurd hsome (by simp [sendAIRequest])
    | .ok (some (c :: cs)) =>
        rw [sendAIRequest] at hsome
        cases hc : c.content with
        | none => rw [hc, contentResult] at hsome; exact absurd hsome (by simp)
        | some content =>
            rw [hc] at hsome
            simp only [contentResult] at hsome
            cases hparts : content.parts with
            | nil => rw [hparts, partsResult] at hsome; exact absurd hsome (by simp)
            | cons part parts =>
                rw [hparts] at hsome
                simp only [partsResult] at hsome
                exact ⟨c, cs, content, part, parts, rfl, hc, hparts, hsome⟩
  · intro r2 hnone
    rw [hnone]
    rfl

/-- Witness for C9 at the http-error response with an empty parse. -/
theorem aiResult_error_discarded_witness :
    (AIResponse.httpError = AIResponse.httpError) ∧
      (sendAIRequest (fun _ => none) AIResponse.httpError = none
        ∧ handleAiResultConfirm none ([] : List AiMeal) = []) :=
  ⟨rfl,
    ⟨(aiResult_error_discarded (fun _ => none) AIResponse.httpError [] rfl).1,
      (aiResult_error_discarded (fun _ => none) AIResponse.httpError [] rfl).2.2.1⟩⟩

/-- C10: both submit handlers reject exactly when one of the height,
weight or age strings is empty, and otherwise persist the computed
document with no further check on gender, activityLevel, goal or the
numeric parseability of the fields. -/
theorem profileSubmit_guard_iff (f : ProfileForm) :
    (profileSetupSubmit f = .rejected ↔ (f.height = "" ∨ f.weight = "" ∨ f.age = ""))
      ∧ (settingsSubmit f = .rejected ↔ (f.height = "" ∨ f.weight = "" ∨ f.age = ""))
      ∧ (¬(f.height = "" ∨ f.weight = "" ∨ f.age = "") →
          profileSetupSubmit f = .saved (profileDataOf f)
            ∧ settingsSubmit f = .saved (profileDataOf f)) := by
  by_cases hc : f.height = "" ∨ f.weight = "" ∨ f.age = "" <;>
    simp [profileSetupSubmit, settingsSubmit, hc]

/-- Witness for C10: a form with unparseable height and unrecognized
enum strings is still accepted and persisted. -/
theorem profileSubmit_guard_iff_witness :
    ¬((("abc" : String) = "" ∨ ("70" : String) = "" ∨ ("30" : String) = "")) ∧
      (profileSetupSubmit ⟨"abc", "70", "30", "robot", "napping", "bulk"⟩
          = .saved (profileDataOf ⟨"abc", "70", "30", "robot", "napping", "bulk"⟩)
        ∧ settingsSubmit ⟨"abc", "70", "30", "robot", "napping", "bulk"⟩
          = .saved (profileDataOf ⟨"abc", "70", "30", "robot", "napping", "bulk"⟩)) :=
  ⟨by decide,
    (profileSubmit_guard_iff ⟨"abc", "70", "30", "robot", "napping", "bulk"⟩).2.2
      (by decide)⟩
